import Mathlib

/-!
Shallow embedding of the statistics-learning web app
(`streamlit_app.py` / `app.py`): the statistics computation
`calculate_stats`, the keyword-based scenario evaluator and example
classifier, the input validation of the two submission handlers, and the
session-scoped progress bookkeeping (`answers_submitted`,
`ai_examples_checked`, `completed_activities`).

Free text is modelled as `List Char` (the character list of a Python
string).  Python's `str.lower` is modelled by mapping `Char.toLower`
over the characters: this agrees with Python on ASCII letters and is the
identity on the Korean characters used by every keyword in the program.
Real arithmetic (`np.mean`, `np.median`, `round`) is modelled exactly
over `ℚ`; `round(x, 1)` is modelled with round-half-to-even, Python's
rounding mode, which on the fixed datasets loses nothing to binary
floating point because every intermediate value is exact.  A rerun of
the script caused by a button press is one `step`; a session is a fold
of `step` over the interaction sequence.
-/

/-- Characters of a Python string. -/
abbrev Str := List Char

/-- Model of Python `str.lower()` (ASCII lowering, identity on Korean). -/
def pyLower (t : Str) : Str := t.map Char.toLower

/-- Model of Python `str.strip()`: drop whitespace from both ends. -/
def pyStrip (t : Str) : Str :=
  ((t.dropWhile Char.isWhitespace).reverse.dropWhile Char.isWhitespace).reverse

/-- Round-half-to-even to an integer, the tie-breaking Python's `round`
uses. -/
def roundHalfEven (q : ℚ) : ℤ :=
  let fl := ⌊q⌋
  let fr := q - fl
  if fr < 1/2 then fl
  else if 1/2 < fr then fl + 1
  else if fl % 2 = 0 then fl else fl + 1

/-- Model of Python `round(x, 1)`. -/
def round1 (q : ℚ) : ℚ := (roundHalfEven (10 * q) : ℚ) / 10

/-- Insert into a ≤-sorted list of naturals. -/
def insertSorted (x : Nat) : List Nat → List Nat
  | [] => [x]
  | y :: ys => if x ≤ y then x :: y :: ys else y :: insertSorted x ys

/-- Insertion sort, modelling the sort inside `np.median`. -/
def sortData (l : List Nat) : List Nat := l.foldr insertSorted []

/-- Model of `np.median`: middle element for odd length, average of the
two middle elements for even length. -/
def medianOf (l : List Nat) : ℚ :=
  let s := sortData l
  let n := s.length
  if n % 2 = 1 then (s.getD (n / 2) 0 : ℚ)
  else ((s.getD (n / 2 - 1) 0 : ℚ) + (s.getD (n / 2) 0 : ℚ)) / 2

/-- The distinct values of `l` in order of first appearance: the key
order of Python's insertion-ordered `Counter(l)`. -/
def keysInOrder : List Nat → List Nat
  | [] => []
  | x :: xs => x :: (keysInOrder xs).filter (fun y => y ≠ x)

/-- Left fold keeping the current best key, replacing it only on a
strictly larger count: the stable maximum-by-count selection performed
by `Counter.most_common(1)` (`heapq.nlargest` is stable, so ties keep
the earlier-inserted key). -/
def pickMax (l : List Nat) : Nat → List Nat → Nat
  | best, [] => best
  | best, x :: xs => pickMax l (if l.count best < l.count x then x else best) xs

/-- Model of `Counter(l).most_common(1)[0][0]`: the first-encountered
value of maximal multiplicity (`0` junk value on the empty list, on
which the Python expression raises). -/
def modeOf (l : List Nat) : Nat :=
  match keysInOrder l with
  | [] => 0
  | k :: ks => pickMax l k ks

/-- Result record of `calculate_stats`. -/
structure Stats where
  mean : ℚ
  median : ℚ
  mode : Nat
deriving DecidableEq, Repr

/-- Embedding of `calculate_stats(data)`: rounded mean, median, and
first-encountered most common value. -/
def calculate_stats (data : List Nat) : Stats :=
  { mean := round1 ((data.sum : ℚ) / (data.length : ℚ))
    median := medianOf data
    mode := modeOf data }

/-- The two scenario identifiers (the keys `1` and `2` of the
`scenarios` dict). -/
inductive Sid
  | one
  | two
deriving DecidableEq, Fintype, Repr

/-- Fixed dataset of each scenario (the `data` field of the `scenarios`
dict; the UI-only fields are not modelled). -/
def scenarioData : Sid → List Nat
  | .one => [4, 5, 6, 6, 6, 7, 7, 23]
  | .two => [250, 250, 250, 260, 260, 270, 280]

/-- Outcome of the scenario evaluator's three-way feedback branch. -/
inductive EvalOutcome
  | correct
  | partCorrect
  | incorrect
deriving DecidableEq, Repr

/-- Answer key of a scenario: accepted statistic labels and accepted
justification keywords. -/
structure AnswerKey where
  stats : List Str
  keywords : List Str

/-- The `correct_answers` dict of the submission handler. -/
def correct_answers : Sid → AnswerKey
  | .one =>
    { stats := ["중앙값".data, "최빈값".data]
      keywords := ["극단값".data, "이상치".data, "왜곡".data, "영향".data, "극단".data] }
  | .two =>
    { stats := ["최빈값".data]
      keywords := ["많이 팔린".data, "빈도".data, "자주".data, "흔한".data] }

/-- The keyword check of the scenario evaluator:
`is_correct_stat = best_stat in correct["stats"]`,
`has_key_reason = any(keyword in reason.lower() for keyword in
correct["keywords"])`, then the `if`/`elif`/`else` feedback branch. -/
def evalAnswer (sid : Sid) (best_stat reason : Str) : EvalOutcome :=
  let correct := correct_answers sid
  if best_stat ∈ correct.stats ∧ ∃ kw ∈ correct.keywords, kw <:+: pyLower reason then
    .correct
  else if best_stat ∈ correct.stats then .partCorrect
  else .incorrect

/-- Outcome of the example classifier's three-way feedback branch. -/
inductive ExampleOutcome
  | appropriate
  | partAppropriate
  | inappropriate
deriving DecidableEq, Repr

/-- Keyword rule of one statistic type: good and bad keyword sets. -/
structure AnalysisRule where
  good_keywords : List Str
  bad_keywords : List Str

/-- The three statistic-type keys (`'mean'`, `'median'`, `'mode'` of the
`stat_types` / `analysis_rules` dicts). -/
inductive SKey
  | mean
  | median
  | mode
deriving DecidableEq, Fintype, Repr

/-- The `analysis_rules` dict of the example-classifier handler. -/
def analysis_rules : SKey → AnalysisRule
  | .mean =>
    { good_keywords := ["고르게".data, "균등".data, "일정".data, "비슷".data,
        "평균적".data, "고루".data, "분포".data]
      bad_keywords := ["극단".data, "이상치".data, "튀는".data, "치우쳐".data, "빈도".data] }
  | .median =>
    { good_keywords := ["극단".data, "이상치".data, "튀는".data, "치우쳐".data,
        "왜곡".data, "한쪽으로".data]
      bad_keywords := ["고르게".data, "균등".data, "평균적".data, "빈도".data] }
  | .mode =>
    { good_keywords := ["많이".data, "자주".data, "흔한".data, "인기".data,
        "빈도".data, "판매량".data, "최다".data]
      bad_keywords := ["평균".data, "중간".data, "균등".data, "고르게".data] }

/-- The keyword analysis of the example classifier:
`has_good = any(keyword in lower_text for keyword in rule['good_keywords'])`,
`has_bad` likewise, then the `if`/`elif`/`else` feedback branch. -/
def analyzeExample (stat_key : SKey) (example_text : Str) : ExampleOutcome :=
  let rule := analysis_rules stat_key
  let lower_text := pyLower example_text
  if (∃ kw ∈ rule.good_keywords, kw <:+: lower_text) ∧
      ¬∃ kw ∈ rule.bad_keywords, kw <:+: lower_text then
    .appropriate
  else if ∃ kw ∈ rule.good_keywords, kw <:+: lower_text then .partAppropriate
  else .inappropriate

/-- The placeholder entry of the label select box. -/
def placeholderLabel : Str := "선택하세요".data

/-- Session state: the key sets of the `st.session_state.answers_submitted`
and `st.session_state.ai_examples_checked` dicts (every stored value is
`True`, so only the key sets matter). -/
structure SessionState where
  answers_submitted : Finset Sid
  ai_examples_checked : Finset SKey
deriving DecidableEq

/-- The freshly initialised session state: both dicts empty. -/
def initState : SessionState := ⟨∅, ∅⟩

/-- The scenario submission handler: if the label is not the placeholder
and the reason is non-empty after stripping, classify and record the
scenario as submitted (`st.session_state.answers_submitted[scenario_id]
= True`); otherwise show the validation error (`none`) and change
nothing. -/
def submitAnswer (s : SessionState) (sid : Sid) (best_stat reason : Str) :
    SessionState × Option EvalOutcome :=
  if best_stat ≠ placeholderLabel ∧ pyStrip reason ≠ [] then
    ({ s with answers_submitted := insert sid s.answers_submitted },
      some (evalAnswer sid best_stat reason))
  else (s, none)

/-- The example-check handler: if the text is non-empty after stripping,
classify and record the statistic type as checked
(`st.session_state.ai_examples_checked[stat_key] = True`); otherwise
show the validation error (`none`) and change nothing. -/
def checkExample (s : SessionState) (stat_key : SKey) (example_text : Str) :
    SessionState × Option ExampleOutcome :=
  if pyStrip example_text ≠ [] then
    ({ s with ai_examples_checked := insert stat_key s.ai_examples_checked },
      some (analyzeExample stat_key example_text))
  else (s, none)

/-- A user interaction: one button press, which triggers one rerun of
the script. -/
inductive Interaction
  | submit (sid : Sid) (best_stat reason : Str)
  | check (stat_key : SKey) (example_text : Str)

/-- The state after processing one interaction's rerun. -/
def step (s : SessionState) : Interaction → SessionState
  | .submit sid l r => (submitAnswer s sid l r).1
  | .check k t => (checkExample s k t).1

/-- The state after a sequence of interactions. -/
def run (s : SessionState) (ops : List Interaction) : SessionState :=
  ops.foldl step s

/-- `total_activities = 5`: 2 scenarios + 3 example checks. -/
def total_activities : Nat := 5

/-- `completed_activities = len(answers_submitted) + len(ai_examples_checked)`. -/
def completedActivities (s : SessionState) : Nat :=
  s.answers_submitted.card + s.ai_examples_checked.card

/-- The displayed percentage
`int(completed_activities / total_activities * 100)` (exact for the six
reachable counts, so natural division models the float expression). -/
def progressPercent (s : SessionState) : Nat :=
  completedActivities s * 100 / total_activities

/-- Whether a rerun's render reaches `st.balloons()`:
`completed_activities == total_activities`. -/
def balloonsShown (s : SessionState) : Bool :=
  completedActivities s == total_activities

/-- Number of reruns whose render shows the celebration over a sequence
of interactions (each interaction reruns the whole script once, and the
progress section runs on every rerun). -/
def celebrationsDuring (s : SessionState) : List Interaction → Nat
  | [] => 0
  | op :: rest =>
    (if balloonsShown (step s op) then 1 else 0) + celebrationsDuring (step s op) rest

/-- The valid scenario submissions occurring in an interaction list, as
a set of scenario ids. -/
def submittedSids (ops : List Interaction) : Finset Sid :=
  (ops.filterMap fun op =>
    match op with
    | .submit sid l r => if l ≠ placeholderLabel ∧ pyStrip r ≠ [] then some sid else none
    | .check _ _ => none).toFinset

/-- The valid example checks occurring in an interaction list, as a set
of statistic-type keys. -/
def checkedKeys (ops : List Interaction) : Finset SKey :=
  (ops.filterMap fun op =>
    match op with
    | .submit _ _ _ => none
    | .check k t => if pyStrip t ≠ [] then some k else none).toFinset

/-- A session that validly completes all five interactions and then
resubmits scenario 1. -/
def celebrationOps : List Interaction :=
  [.submit .one "중앙값".data "이상치".data,
   .submit .two "최빈값".data "빈도".data,
   .check .mean "고르게".data,
   .check .median "극단".data,
   .check .mode "많이".data,
   .submit .one "평균".data "아무 이유".data]

/-! ### Helper lemmas -/

lemma infix_pyLower {kw r : Str} (hfix : kw.map Char.toLower = kw) (h : kw <:+: r) :
    kw <:+: pyLower r := by
  obtain ⟨s, t, rfl⟩ := h
  exact ⟨s.map Char.toLower, t.map Char.toLower, by simp [pyLower, hfix]⟩

lemma evalAnswer_correct_iff (sid : Sid) (l r : Str) :
    evalAnswer sid l r = .correct ↔
      l ∈ (correct_answers sid).stats ∧
        ∃ kw ∈ (correct_answers sid).keywords, kw <:+: pyLower r := by
  simp only [evalAnswer]
  split_ifs with h1 h2 <;> simp_all

lemma evalAnswer_part_iff (sid : Sid) (l r : Str) :
    evalAnswer sid l r = .partCorrect ↔
      l ∈ (correct_answers sid).stats ∧
        ¬∃ kw ∈ (correct_answers sid).keywords, kw <:+: pyLower r := by
  simp only [evalAnswer]
  split_ifs with h1 h2 <;> simp_all

lemma evalAnswer_incorrect_iff (sid : Sid) (l r : Str) :
    evalAnswer sid l r = .incorrect ↔ l ∉ (correct_answers sid).stats := by
  simp only [evalAnswer]
  split_ifs with h1 h2 <;> simp_all

lemma analyzeExample_appropriate_iff (k : SKey) (t : Str) :
    analyzeExample k t = .appropriate ↔
      (∃ kw ∈ (analysis_rules k).good_keywords, kw <:+: pyLower t) ∧
        ¬∃ kw ∈ (analysis_rules k).bad_keywords, kw <:+: pyLower t := by
  simp only [analyzeExample]
  split_ifs with h1 h2 <;> simp_all

lemma analyzeExample_part_iff (k : SKey) (t : Str) :
    analyzeExample k t = .partAppropriate ↔
      (∃ kw ∈ (analysis_rules k).good_keywords, kw <:+: pyLower t) ∧
        ∃ kw ∈ (analysis_rules k).bad_keywords, kw <:+: pyLower t := by
  simp only [analyzeExample]
  split_ifs with h1 h2 <;> simp_all

lemma analyzeExample_inappropriate_iff (k : SKey) (t : Str) :
    analyzeExample k t = .inappropriate ↔
      ¬∃ kw ∈ (analysis_rules k).good_keywords, kw <:+: pyLower t := by
  simp only [analyzeExample]
  split_ifs with h1 h2 <;> simp_all

lemma stats_one_eval : calculate_stats (scenarioData .one) = ⟨8, 6, 6⟩ := by
  have hs : sortData [4, 5, 6, 6, 6, 7, 7, 23] = [4, 5, 6, 6, 6, 7, 7, 23] := by decide
  have hm : modeOf [4, 5, 6, 6, 6, 7, 7, 23] = 6 := by decide
  rw [calculate_stats]
  norm_num [scenarioData, round1, roundHalfEven, medianOf, hs, hm, Stats.mk.injEq]

lemma stats_two_eval : calculate_stats (scenarioData .two) = ⟨260, 260, 250⟩ := by
  have hs : sortData [250, 250, 250, 260, 260, 270, 280]
      = [250, 250, 250, 260, 260, 270, 280] := by decide
  have hm : modeOf [250, 250, 250, 260, 260, 270, 280] = 250 := by decide
  rw [calculate_stats]
  norm_num [scenarioData, round1, roundHalfEven, medianOf, hs, hm, Stats.mk.injEq]

lemma keysInOrder_mem {l : List Nat} {a : Nat} : a ∈ keysInOrder l ↔ a ∈ l := by
  induction l with
  | nil => simp [keysInOrder]
  | cons x xs ih =>
    simp only [keysInOrder, List.mem_cons, List.mem_filter, decide_eq_true_eq, ih]
    by_cases h : a = x <;> simp [h]

lemma keysInOrder_pairwise (l : List Nat) :
    (keysInOrder l).Pairwise (fun a b => l.indexOf a < l.indexOf b) := by
  induction l with
  | nil => simp [keysInOrder]
  | cons x xs ih =>
    rw [keysInOrder]
    refine List.pairwise_cons.mpr ⟨?_, ?_⟩
    · intro b hb
      have hbne : b ≠ x := by simpa using (List.mem_filter.mp hb).2
      rw [List.indexOf_cons_self, List.indexOf_cons_ne _ (Ne.symm hbne)]
      exact Nat.succ_pos _
    · have hsub : List.Sublist ((keysInOrder xs).filter (fun y => y ≠ x))
          (keysInOrder xs) := List.filter_sublist _
      have hp := ih.sublist hsub
      refine hp.imp_of_mem ?_
      intro a b ha hb hab
      have hane : a ≠ x := by simpa using (List.mem_filter.mp ha).2
      have hbne : b ≠ x := by simpa using (List.mem_filter.mp hb).2
      rw [List.indexOf_cons_ne _ (Ne.symm hane), List.indexOf_cons_ne _ (Ne.symm hbne)]
      exact Nat.succ_lt_succ hab

lemma count_le_of_split {l p q : List Nat} {r : Nat}
    (hp : ∀ x ∈ p, l.count x < l.count r) (hq : ∀ x ∈ q, l.count x ≤ l.count r) :
    ∀ x ∈ p ++ r :: q, l.count x ≤ l.count r := by
  intro x hx
  rcases List.mem_append.mp hx with h | h
  · exact le_of_lt (hp x h)
  · rcases List.mem_cons.mp h with rfl | h
    · exact le_rfl
    · exact hq x h

lemma pickMax_spec (l : List Nat) :
    ∀ (ks : List Nat) (best : Nat),
      ∃ p q, best :: ks = p ++ pickMax l best ks :: q ∧
        (∀ x ∈ p, l.count x < l.count (pickMax l best ks)) ∧
        (∀ x ∈ q, l.count x ≤ l.count (pickMax l best ks)) := by
  intro ks
  induction ks with
  | nil => exact fun best => ⟨[], [], rfl, by simp, by simp⟩
  | cons x xs ih =>
    intro best
    by_cases h : l.count best < l.count x
    · have hpm : pickMax l best (x :: xs) = pickMax l x xs := by
        rw [pickMax, if_pos h]
      obtain ⟨p, q, heq, hp, hq⟩ := ih x
      rw [hpm]
      refine ⟨best :: p, q, by rw [List.cons_append, ← heq], ?_, hq⟩
      intro y hy
      rcases List.mem_cons.mp hy with rfl | hyp
      · exact lt_of_lt_of_le h
          (count_le_of_split hp hq x (heq ▸ List.mem_cons_self x xs))
      · exact hp y hyp
    · have hpm : pickMax l best (x :: xs) = pickMax l best xs := by
        rw [pickMax, if_neg h]
      obtain ⟨p, q, heq, hp, hq⟩ := ih best
      rw [hpm]
      cases p with
      | nil =>
        simp only [List.nil_append] at heq
        injection heq with h1 h2
        refine ⟨[], x :: xs, ?_, by simp, ?_⟩
        · simp [← h1]
        · intro y hy
          rcases List.mem_cons.mp hy with rfl | hyx
          · rw [← h1]; exact Nat.le_of_not_lt h
          · exact hq y (h2 ▸ hyx)
      | cons a p1 =>
        rw [List.cons_append] at heq
        injection heq with h1 h2
        subst h1
        refine ⟨best :: x :: p1, q, ?_, ?_, hq⟩
        · conv_lhs => rw [h2]
          simp
        · intro y hy
          have hbest : l.count best < l.count (pickMax l best xs) :=
            hp best (List.mem_cons_self _ _)
          rcases List.mem_cons.mp hy with rfl | hy1
          · exact hbest
          · rcases List.mem_cons.mp hy1 with rfl | hy2
            · exact lt_of_le_of_lt (Nat.le_of_not_lt h) hbest
            · exact hp y (List.mem_cons_of_mem _ hy2)

lemma modeOf_spec (l : List Nat) (hl : l ≠ []) :
    modeOf l ∈ l ∧ (∀ x ∈ l, l.count x ≤ l.count (modeOf l)) ∧
      (∀ x ∈ l, l.count x = l.count (modeOf l) →
        l.indexOf (modeOf l) ≤ l.indexOf x) := by
  obtain ⟨k, ks, hk⟩ : ∃ k ks, keysInOrder l = k :: ks := by
    cases l with
    | nil => exact absurd rfl hl
    | cons x xs => exact ⟨x, _, rfl⟩
  have hmode : modeOf l = pickMax l k ks := by rw [modeOf, hk]
  obtain ⟨p, q, heq, hp, hq⟩ := pickMax_spec l ks k
  have hsplit : keysInOrder l = p ++ pickMax l k ks :: q := by rw [hk, heq]
  have hmem_keys : ∀ x ∈ l, x ∈ p ++ pickMax l k ks :: q := fun x hx =>
    hsplit ▸ keysInOrder_mem.mpr hx
  have hrmem : pickMax l k ks ∈ l := keysInOrder_mem.mp
    (by rw [hsplit]; exact List.mem_append_right _ (List.mem_cons_self _ _))
  refine ⟨hmode ▸ hrmem, ?_, ?_⟩
  · intro x hx
    rw [hmode]
    exact count_le_of_split hp hq x (hmem_keys x hx)
  · intro x hx hcnt
    rw [hmode] at hcnt ⊢
    rcases List.mem_append.mp (hmem_keys x hx) with hxp | hxc
    · exact absurd hcnt (ne_of_lt (hp x hxp))
    · rcases List.mem_cons.mp hxc with rfl | hxq
      · exact le_rfl
      · have hpw := keysInOrder_pairwise l
        rw [hsplit] at hpw
        have hrq := (List.pairwise_cons.mp (List.pairwise_append.mp hpw).2.1).1 x hxq
        exact le_of_lt hrq

lemma submit_step_idem (s : SessionState) (sid : Sid) (l r : Str) :
    (submitAnswer (submitAnswer s sid l r).1 sid l r).1 = (submitAnswer s sid l r).1 := by
  by_cases h : l ≠ placeholderLabel ∧ pyStrip r ≠ []
  · simp [submitAnswer, h, Finset.insert_idem]
  · simp [submitAnswer, h]

lemma check_step_idem (s : SessionState) (k : SKey) (t : Str) :
    (checkExample (checkExample s k t).1 k t).1 = (checkExample s k t).1 := by
  by_cases h : pyStrip t ≠ []
  · simp [checkExample, h, Finset.insert_idem]
  · simp [checkExample, h]

lemma run_sets (ops : List Interaction) : ∀ s : SessionState,
    (run s ops).answers_submitted = s.answers_submitted ∪ submittedSids ops ∧
    (run s ops).ai_examples_checked = s.ai_examples_checked ∪ checkedKeys ops := by
  induction ops with
  | nil => intro s; simp [run, submittedSids, checkedKeys]
  | cons op rest ih =>
    intro s
    have hrun : run s (op :: rest) = run (step s op) rest := rfl
    rw [hrun]
    obtain ⟨ha, hc⟩ := ih (step s op)
    rw [ha, hc]
    cases op with
    | submit sid l r =>
      by_cases h : l ≠ placeholderLabel ∧ pyStrip r ≠ []
      · constructor
        · rw [show (step s (.submit sid l r)).answers_submitted
              = insert sid s.answers_submitted by simp [step, submitAnswer, h]]
          rw [show submittedSids (.submit sid l r :: rest)
              = insert sid (submittedSids rest) by
            simp [submittedSids, List.filterMap_cons, h]]
          rw [Finset.insert_union, Finset.union_insert]
        · rw [show (step s (.submit sid l r)).ai_examples_checked
              = s.ai_examples_checked by simp [step, submitAnswer, h]]
          rw [show checkedKeys (.submit sid l r :: rest) = checkedKeys rest by
            simp [checkedKeys, List.filterMap_cons]]
      · constructor
        · rw [show (step s (.submit sid l r)).answers_submitted
              = s.answers_submitted by simp [step, submitAnswer, h]]
          rw [show submittedSids (.submit sid l r :: rest) = submittedSids rest by
            simp [submittedSids, List.filterMap_cons, h]]
        · rw [show (step s (.submit sid l r)).ai_examples_checked
              = s.ai_examples_checked by simp [step, submitAnswer, h]]
          rw [show checkedKeys (.submit sid l r :: rest) = checkedKeys rest by
            simp [checkedKeys, List.filterMap_cons]]
    | check k t =>
      by_cases h : pyStrip t ≠ []
      · constructor
        · rw [show (step s (.check k t)).answers_submitted = s.answers_submitted by
            simp [step, checkExample, h]]
          rw [show submittedSids (.check k t :: rest) = submittedSids rest by
            simp [submittedSids, List.filterMap_cons]]
        · rw [show (step s (.check k t)).ai_examples_checked
              = insert k s.ai_examples_checked by simp [step, checkExample, h]]
          rw [show checkedKeys (.check k t :: rest) = insert k (checkedKeys rest) by
            simp [checkedKeys, List.filterMap_cons, h]]
          rw [Finset.insert_union, Finset.union_insert]
      · constructor
        · rw [show (step s (.check k t)).answers_submitted = s.answers_submitted by
            simp [step, checkExample, h]]
          rw [show submittedSids (.check k t :: rest) = submittedSids rest by
            simp [submittedSids, List.filterMap_cons]]
        · rw [show (step s (.check k t)).ai_examples_checked = s.ai_examples_checked by
            simp [step, checkExample, h]]
          rw [show checkedKeys (.check k t :: rest) = checkedKeys rest by
            simp [checkedKeys, List.filterMap_cons, h]]

lemma completedActivities_le_five (s : SessionState) :
    completedActivities s ≤ total_activities := by
  have h1 : s.answers_submitted.card ≤ 2 := by
    have := Finset.card_le_univ s.answers_submitted
    simpa using this
  have h2 : s.ai_examples_checked.card ≤ 3 := by
    have := Finset.card_le_univ s.ai_examples_checked
    simpa using this
  simp only [completedActivities, total_activities]
  omega

lemma step_mono (s : SessionState) (op : Interaction) :
    completedActivities s ≤ completedActivities (step s op) := by
  cases op with
  | submit sid l r =>
    by_cases h : l ≠ placeholderLabel ∧ pyStrip r ≠ []
    · simp only [step, submitAnswer, if_pos h, completedActivities]
      have := Finset.card_le_card (Finset.subset_insert sid s.answers_submitted)
      omega
    · simp [step, submitAnswer, h]
  | check k t =>
    by_cases h : pyStrip t ≠ []
    · simp only [step, checkExample, if_pos h, completedActivities]
      have := Finset.card_le_card (Finset.subset_insert k s.ai_examples_checked)
      omega
    · simp [step, checkExample, h]

lemma run_mono (ops : List Interaction) : ∀ s : SessionState,
    completedActivities s ≤ completedActivities (run s ops) := by
  induction ops with
  | nil => intro s; simp [run]
  | cons op rest ih =>
    intro s
    exact le_trans (step_mono s op) (ih (step s op))

/-! ### Claims -/

/-- C1 (counterexample): the claim that `calculate_stats` returns
mean `6.5` on the scenario-1 dataset `[4,5,6,6,6,7,7,23]` is false: the
sum is 64 and the mean is `8.0`, so the claimed triple does not hold. -/
theorem scenario1_stats_claim_false :
    ¬((calculate_stats (scenarioData .one)).mean = 13 / 2 ∧
      (calculate_stats (scenarioData .one)).median = 6 ∧
      (calculate_stats (scenarioData .one)).mode = 6) := by
  rw [stats_one_eval]
  intro h
  have h1 := h.1
  norm_num at h1

/-- C1 (amended): for the fixed scenario-1 dataset `[4,5,6,6,6,7,7,23]`
(sum 64, length 8), `calculate_stats` returns mean `8.0` (the arithmetic
average rounded to one decimal place), median `6.0` and mode `6`. -/
theorem scenario1_stats_values :
    (scenarioData .one).sum = 64 ∧ (scenarioData .one).length = 8 ∧
    calculate_stats (scenarioData .one) = ⟨8, 6, 6⟩ :=
  ⟨by decide, by decide, stats_one_eval⟩

/-- C2: the scenario evaluator classifies every submission into exactly
one of the three outcomes — `correct` iff the label is accepted and some
answer-key keyword is a substring of the lowered reason,
`partCorrect` iff the label is accepted and no keyword matches,
`incorrect` iff the label is not accepted; in particular for scenario 1,
label 중앙값 or 최빈값 with a reason containing 이상치 is correct, label
중앙값 with a reason matching no keyword is partly correct, and label
평균 is incorrect for every reason. -/
theorem scenario_eval_classification :
    (∀ (sid : Sid) (l r : Str),
      (evalAnswer sid l r = .correct ↔
        l ∈ (correct_answers sid).stats ∧
          ∃ kw ∈ (correct_answers sid).keywords, kw <:+: pyLower r) ∧
      (evalAnswer sid l r = .partCorrect ↔
        l ∈ (correct_answers sid).stats ∧
          ¬∃ kw ∈ (correct_answers sid).keywords, kw <:+: pyLower r) ∧
      (evalAnswer sid l r = .incorrect ↔ l ∉ (correct_answers sid).stats)) ∧
    (∀ r : Str, "이상치".data <:+: r →
      evalAnswer .one "중앙값".data r = .correct ∧
      evalAnswer .one "최빈값".data r = .correct) ∧
    (∀ r : Str, (∀ kw ∈ (correct_answers .one).keywords, ¬kw <:+: pyLower r) →
      evalAnswer .one "중앙값".data r = .partCorrect) ∧
    (∀ r : Str, evalAnswer .one "평균".data r = .incorrect) := by
  refine ⟨fun sid l r => ⟨evalAnswer_correct_iff sid l r, evalAnswer_part_iff sid l r,
    evalAnswer_incorrect_iff sid l r⟩, ?_, ?_, ?_⟩
  · intro r h
    have hkw : ("이상치".data : Str) <:+: pyLower r := infix_pyLower (by decide) h
    constructor <;>
      exact (evalAnswer_correct_iff _ _ _).mpr ⟨by decide, "이상치".data, by decide, hkw⟩
  · intro r h
    refine (evalAnswer_part_iff _ _ _).mpr ⟨by decide, ?_⟩
    rintro ⟨kw, hkw, hinf⟩
    exact h kw hkw hinf
  · intro r
    exact (evalAnswer_incorrect_iff _ _ _).mpr (by decide)

/-- C2 witness: the three scenario-1 classifications at concrete
reasons. -/
theorem scenario_eval_classification_witness :
    evalAnswer .one "중앙값".data "이상치가 있어요".data = .correct ∧
    evalAnswer .one "중앙값".data "그냥요".data = .partCorrect ∧
    evalAnswer .one "평균".data "이상치".data = .incorrect :=
  ⟨(scenario_eval_classification.2.1 "이상치가 있어요".data (by decide)).1,
    scenario_eval_classification.2.2.1 "그냥요".data (by decide),
    scenario_eval_classification.2.2.2 "이상치".data⟩

/-- C3: the example classifier classifies every text into exactly one of
the three outcomes — `appropriate` iff some good keyword and no bad
keyword is a substring of the lowered text, `partAppropriate` iff both a
good and a bad keyword are present, `inappropriate` iff no good keyword
is present; in particular for `mean`, text containing 고르게 and no bad
keyword is appropriate, text containing 고르게 and 빈도 is partly
appropriate, and text containing neither good nor bad keywords is
inappropriate. -/
theorem example_classifier_classification :
    (∀ (k : SKey) (t : Str),
      (analyzeExample k t = .appropriate ↔
        (∃ kw ∈ (analysis_rules k).good_keywords, kw <:+: pyLower t) ∧
          ¬∃ kw ∈ (analysis_rules k).bad_keywords, kw <:+: pyLower t) ∧
      (analyzeExample k t = .partAppropriate ↔
        (∃ kw ∈ (analysis_rules k).good_keywords, kw <:+: pyLower t) ∧
          ∃ kw ∈ (analysis_rules k).bad_keywords, kw <:+: pyLower t) ∧
      (analyzeExample k t = .inappropriate ↔
        ¬∃ kw ∈ (analysis_rules k).good_keywords, kw <:+: pyLower t)) ∧
    (∀ t : Str, "고르게".data <:+: t →
      (∀ kw ∈ (analysis_rules .mean).bad_keywords, ¬kw <:+: pyLower t) →
      analyzeExample .mean t = .appropriate) ∧
    (∀ t : Str, "고르게".data <:+: t → "빈도".data <:+: t →
      analyzeExample .mean t = .partAppropriate) ∧
    (∀ t : Str, (∀ kw ∈ (analysis_rules .mean).good_keywords, ¬kw <:+: pyLower t) →
      (∀ kw ∈ (analysis_rules .mean).bad_keywords, ¬kw <:+: pyLower t) →
      analyzeExample .mean t = .inappropriate) := by
  refine ⟨fun k t => ⟨analyzeExample_appropriate_iff k t, analyzeExample_part_iff k t,
    analyzeExample_inappropriate_iff k t⟩, ?_, ?_, ?_⟩
  · intro t hgood hbad
    refine (analyzeExample_appropriate_iff _ _).mpr
      ⟨⟨"고르게".data, by decide, infix_pyLower (by decide) hgood⟩, ?_⟩
    rintro ⟨kw, hkw, hinf⟩
    exact hbad kw hkw hinf
  · intro t hgood hbad
    exact (analyzeExample_part_iff _ _).mpr
      ⟨⟨"고르게".data, by decide, infix_pyLower (by decide) hgood⟩,
        ⟨"빈도".data, by decide, infix_pyLower (by decide) hbad⟩⟩
  · intro t hgood _
    refine (analyzeExample_inappropriate_iff _ _).mpr ?_
    rintro ⟨kw, hkw, hinf⟩
    exact hgood kw hkw hinf

/-- C3 witness: the three `mean` classifications at concrete texts. -/
theorem example_classifier_classification_witness :
    analyzeExample .mean "고르게 퍼져 있다".data = .appropriate ∧
    analyzeExample .mean "고르게 그리고 빈도".data = .partAppropriate ∧
    analyzeExample .mean "아무 내용".data = .inappropriate :=
  ⟨example_classifier_classification.2.1 "고르게 퍼져 있다".data (by decide) (by decide),
    example_classifier_classification.2.2.1 "고르게 그리고 빈도".data
      (by decide) (by decide),
    example_classifier_classification.2.2.2 "아무 내용".data (by decide) (by decide)⟩

/-- C4: for the fixed scenario-2 dataset `[250,250,250,260,260,270,280]`
(sum 1820, length 7), `calculate_stats` returns mean `260.0`, median
`260.0` and mode `250`. -/
theorem scenario2_stats_values :
    (scenarioData .two).sum = 1820 ∧ (scenarioData .two).length = 7 ∧
    calculate_stats (scenarioData .two) = ⟨260, 260, 250⟩ :=
  ⟨by decide, by decide, stats_two_eval⟩

/-- C5: for every non-empty input list, the mode returned by
`calculate_stats` occurs in the list, has maximal occurrence count, and
among the values of maximal count it is the one of earliest first
appearance; on the two fixed datasets the output is the determined
values `6` and `250`. -/
theorem mode_first_encountered_max (l : List Nat) (hl : l ≠ []) :
    (calculate_stats l).mode ∈ l ∧
    (∀ x ∈ l, l.count x ≤ l.count ((calculate_stats l).mode)) ∧
    (∀ x ∈ l, l.count x = l.count ((calculate_stats l).mode) →
      l.indexOf ((calculate_stats l).mode) ≤ l.indexOf x) ∧
    (calculate_stats (scenarioData .one)).mode = 6 ∧
    (calculate_stats (scenarioData .two)).mode = 250 := by
  have h := modeOf_spec l hl
  have hm : (calculate_stats l).mode = modeOf l := rfl
  rw [hm]
  exact ⟨h.1, h.2.1, h.2.2, by decide, by decide⟩

/-- C5 witness: the mode properties instantiated on the scenario-1
dataset at the tied-frequency value 7. -/
theorem mode_first_encountered_max_witness :
    (calculate_stats [4, 5, 6, 6, 6, 7, 7, 23]).mode ∈ [4, 5, 6, 6, 6, 7, 7, 23] ∧
    [4, 5, 6, 6, 6, 7, 7, 23].count 7
      ≤ [4, 5, 6, 6, 6, 7, 7, 23].count
          ((calculate_stats [4, 5, 6, 6, 6, 7, 7, 23]).mode) :=
  ⟨(mode_first_encountered_max [4, 5, 6, 6, 6, 7, 7, 23] (by decide)).1,
    (mode_first_encountered_max [4, 5, 6, 6, 6, 7, 7, 23] (by decide)).2.1 7 (by decide)⟩

/-- C6: a submission with a non-placeholder label and a reason that is
non-empty after stripping marks the scenario completed (whatever the
classification outcome is) and touches nothing else; otherwise the
handler signals a validation error and leaves the whole state unchanged;
and the analogous property for the example classifier with its
non-empty-text precondition. -/
theorem submission_validation_and_completion (s : SessionState) (sid : Sid)
    (l r : Str) (k : SKey) (t : Str) :
    (l ≠ placeholderLabel ∧ pyStrip r ≠ [] →
      (submitAnswer s sid l r).1.answers_submitted = insert sid s.answers_submitted ∧
      sid ∈ (submitAnswer s sid l r).1.answers_submitted ∧
      (submitAnswer s sid l r).1.ai_examples_checked = s.ai_examples_checked ∧
      (submitAnswer s sid l r).2 = some (evalAnswer sid l r)) ∧
    (¬(l ≠ placeholderLabel ∧ pyStrip r ≠ []) → submitAnswer s sid l r = (s, none)) ∧
    (pyStrip t ≠ [] →
      (checkExample s k t).1.ai_examples_checked = insert k s.ai_examples_checked ∧
      k ∈ (checkExample s k t).1.ai_examples_checked ∧
      (checkExample s k t).1.answers_submitted = s.answers_submitted ∧
      (checkExample s k t).2 = some (analyzeExample k t)) ∧
    (¬pyStrip t ≠ [] → checkExample s k t = (s, none)) := by
  refine ⟨?_, ?_, ?_, ?_⟩ <;> intro h
  · simp [submitAnswer, h, Finset.mem_insert]
  · simp [submitAnswer, h]
  · simp [checkExample, h, Finset.mem_insert]
  · simp [checkExample, h]

/-- C6 witness: a valid scenario-1 submission marks the scenario, and an
all-whitespace example text is rejected without a state change. -/
theorem submission_validation_and_completion_witness :
    (submitAnswer initState .one "중앙값".data "이상치 때문".data).1.answers_submitted
      = insert .one initState.answers_submitted ∧
    checkExample initState .mean "   ".data = (initState, none) :=
  ⟨((submission_validation_and_completion initState .one "중앙값".data
      "이상치 때문".data .mean "   ".data).1 (by decide)).1,
    (submission_validation_and_completion initState .one "중앙값".data
      "이상치 때문".data .mean "   ".data).2.2.2 (by decide)⟩

/-- C7: marking is idempotent — repeating the same scenario submission
or the same example check any number of times yields the same completed
count as doing it once, and one submission raises the count by at most
one. -/
theorem completion_idempotent (s : SessionState) (sid : Sid) (l r : Str)
    (k : SKey) (t : Str) (n : Nat) :
    completedActivities ((fun st => (submitAnswer st sid l r).1)^[n + 1] s)
      = completedActivities ((submitAnswer s sid l r).1) ∧
    completedActivities ((submitAnswer s sid l r).1) ≤ completedActivities s + 1 ∧
    completedActivities ((fun st => (checkExample st k t).1)^[n + 1] s)
      = completedActivities ((checkExample s k t).1) ∧
    completedActivities ((checkExample s k t).1) ≤ completedActivities s + 1 := by
  refine ⟨?_, ?_, ?_, ?_⟩
  · rw [Function.iterate_succ_apply]
    rw [Function.iterate_fixed (submit_step_idem s sid l r)]
  · by_cases h : l ≠ placeholderLabel ∧ pyStrip r ≠ []
    · simp only [submitAnswer, if_pos h, completedActivities]
      have := Finset.card_insert_le sid s.answers_submitted
      omega
    · simp [submitAnswer, h]
  · rw [Function.iterate_succ_apply]
    rw [Function.iterate_fixed (check_step_idem s k t)]
  · by_cases h : pyStrip t ≠ []
    · simp only [checkExample, if_pos h, completedActivities]
      have := Finset.card_insert_le k s.ai_examples_checked
      omega
    · simp [checkExample, h]

/-- C8: in every reachable state the progress count equals the number of
distinct validly completed interactions (the sets of scenario ids and
statistic types with a valid submission in the run), is at most 5, and
never decreases under any further interaction or sequence of
interactions. -/
theorem progress_count_invariant :
    (∀ ops : List Interaction,
      (run initState ops).answers_submitted = submittedSids ops ∧
      (run initState ops).ai_examples_checked = checkedKeys ops ∧
      completedActivities (run initState ops)
        = (submittedSids ops).card + (checkedKeys ops).card) ∧
    (∀ s : SessionState, completedActivities s ≤ total_activities) ∧
    (∀ (s : SessionState) (op : Interaction),
      completedActivities s ≤ completedActivities (step s op)) ∧
    (∀ (s : SessionState) (ops : List Interaction),
      completedActivities s ≤ completedActivities (run s ops)) := by
  refine ⟨?_, completedActivities_le_five, step_mono, fun s ops => run_mono ops s⟩
  intro ops
  obtain ⟨ha, hc⟩ := run_sets ops initState
  have ha2 : (run initState ops).answers_submitted = submittedSids ops := by
    rw [ha]; simp [initState]
  have hc2 : (run initState ops).ai_examples_checked = checkedKeys ops := by
    rw [hc]; simp [initState]
  exact ⟨ha2, hc2, by rw [completedActivities, ha2, hc2]⟩

/-- C9 (counterexample): the celebration is not triggered exactly once —
in a session that validly completes all five interactions and then
resubmits scenario 1, the threshold 5/5 is reached after five
interactions, yet the celebration is shown on two reruns (once when the
threshold is reached and again on the later interaction's rerender),
because the progress section has no once-only guard. -/
theorem celebration_retrigger_counterexample :
    completedActivities (run initState (celebrationOps.take 5)) = total_activities ∧
    celebrationsDuring initState celebrationOps = 2 := by decide

/-- C9 (amended): the displayed ratio is 0/5 (0%) after zero
interactions and 5/5 (100%) once both scenarios and all three statistic
types are completed regardless of correctness, and the celebration is
shown on exactly the renders at which the count is 5 — hence once the
threshold is reached it fires on that rerun and again on every later
interaction's rerun, not exactly once. -/
theorem celebration_on_full_progress :
    completedActivities initState = 0 ∧ progressPercent initState = 0 ∧
    balloonsShown initState = false ∧
    (∀ s : SessionState, s.answers_submitted = Finset.univ →
      s.ai_examples_checked = Finset.univ →
      completedActivities s = total_activities ∧ progressPercent s = 100 ∧
        balloonsShown s = true) ∧
    (∀ s : SessionState, balloonsShown s = true ↔
      completedActivities s = total_activities) ∧
    (∀ (s : SessionState) (op : Interaction), balloonsShown s = true →
      balloonsShown (step s op) = true) := by
  have hiff : ∀ s : SessionState, balloonsShown s = true ↔
      completedActivities s = total_activities := by
    intro s; simp [balloonsShown]
  refine ⟨rfl, rfl, rfl, ?_, hiff, ?_⟩
  · intro s h1 h2
    have hsid : Fintype.card Sid = 2 := rfl
    have hskey : Fintype.card SKey = 3 := rfl
    have hcount : completedActivities s = total_activities := by
      simp [completedActivities, h1, h2, total_activities, hsid, hskey]
    exact ⟨hcount, by simp [progressPercent, hcount, total_activities],
      (hiff s).mpr hcount⟩
  · intro s op h
    have h5 := (hiff s).mp h
    have hmono := step_mono s op
    have hle := completedActivities_le_five (step s op)
    refine (hiff (step s op)).mpr ?_
    omega

/-- C9 witness: after the five valid interactions the display reads
100% and the celebration still fires on the rerun of a sixth,
repeated, interaction. -/
theorem celebration_on_full_progress_witness :
    progressPercent (run initState (celebrationOps.take 5)) = 100 ∧
    balloonsShown (step (run initState (celebrationOps.take 5))
      (.submit .one "평균".data "재제출".data)) = true :=
  ⟨(celebration_on_full_progress.2.2.2.1 (run initState (celebrationOps.take 5))
      (by decide) (by decide)).2.1,
    celebration_on_full_progress.2.2.2.2.2 (run initState (celebrationOps.take 5))
      (.submit .one "평균".data "재제출".data)
      ((celebration_on_full_progress.2.2.2.1 (run initState (celebrationOps.take 5))
        (by decide) (by decide)).2.2)⟩

/-- C10: frame property — a valid scenario submission sets only its own
scenario's completion entry, leaving the other scenario's entry and the
whole classifier map unchanged, and a valid example check sets only its
own statistic type's entry, leaving the other types and the whole
scenario map unchanged. -/
theorem submission_frame_property (s : SessionState) (sid sid2 : Sid)
    (k k2 : SKey) (l r t : Str) :
    (l ≠ placeholderLabel ∧ pyStrip r ≠ [] →
      sid ∈ (submitAnswer s sid l r).1.answers_submitted ∧
      (sid2 ≠ sid →
        (sid2 ∈ (submitAnswer s sid l r).1.answers_submitted ↔
          sid2 ∈ s.answers_submitted)) ∧
      (submitAnswer s sid l r).1.ai_examples_checked = s.ai_examples_checked) ∧
    (pyStrip t ≠ [] →
      k ∈ (checkExample s k t).1.ai_examples_checked ∧
      (k2 ≠ k →
        (k2 ∈ (checkExample s k t).1.ai_examples_checked ↔
          k2 ∈ s.ai_examples_checked)) ∧
      (checkExample s k t).1.answers_submitted = s.answers_submitted) := by
  constructor <;> intro h
  · refine ⟨by simp [submitAnswer, h], fun hne => ?_, by simp [submitAnswer, h]⟩
    simp [submitAnswer, h, Finset.mem_insert, hne]
  · refine ⟨by simp [checkExample, h], fun hne => ?_, by simp [checkExample, h]⟩
    simp [checkExample, h, Finset.mem_insert, hne]

/-- C10 witness: a valid scenario-2 submission on the fresh state marks
scenario 2 and leaves the classifier map untouched. -/
theorem submission_frame_property_witness :
    Sid.two ∈ (submitAnswer initState .two "최빈값".data "빈도".data).1.answers_submitted ∧
    (submitAnswer initState .two "최빈값".data "빈도".data).1.ai_examples_checked
      = initState.ai_examples_checked :=
  ⟨((submission_frame_property initState .two .one .mean .median "최빈값".data
      "빈도".data "x".data).1 (by decide)).1,
    ((submission_frame_property initState .two .one .mean .median "최빈값".data
      "빈도".data "x".data).1 (by decide)).2.2⟩
